import Mathlib

/-!
Verification development for the pglocker repository: a Postgres
advisory-lock client.  The Go source (pglocker.go) is shallowly embedded:
errors are an inductive type, the name-to-key checksum (crc32 IEEE) is
implemented bitwise over byte lists, database interaction is modelled by
an environment of response functions, Go contexts by a small inductive
tree recording derivation and deadlines, and the background goroutine by
an explicit event trace.
-/

namespace Pglocker

/-- Go error interface values relevant to pglocker: the three sentinel
errors compared against in ignoreableErrs, and arbitrary other errors
carrying their message.  `Option GoErr` models a Go `error` (none = nil). -/
inductive GoErr where
  | deadlineExceeded
  | canceled
  | errConnDone
  | other (msg : String)
deriving DecidableEq, Repr

/-- The message rendered by fmt %v for each error value. -/
def goErrString : GoErr → String
  | .deadlineExceeded => "context deadline exceeded"
  | .canceled => "context canceled"
  | .errConnDone => "sql: connection is already closed"
  | .other msg => msg

/-- fmt %v applied to an error interface value (nil prints as <nil>). -/
def errValueString : Option GoErr → String
  | none => "<nil>"
  | some e => goErrString e

/-- The package-level slice `ignoreableErrs`:
context.DeadlineExceeded, context.Canceled, sql.ErrConnDone. -/
def ignoreableErrs : List GoErr :=
  [GoErr.deadlineExceeded, GoErr.canceled, GoErr.errConnDone]

/-- The for-loop body of `ignoreErr`: compare err against each entry with
Go ==, returning nil on the first match, otherwise err unchanged. -/
def ignoreErrLoop : List GoErr → Option GoErr → Option GoErr
  | [], err => err
  | ignoreMe :: rest, err =>
      if err = some ignoreMe then none else ignoreErrLoop rest err

/-- `ignoreErr` returns err unless it is one of ignoreableErrs. -/
def ignoreErr (err : Option GoErr) : Option GoErr :=
  ignoreErrLoop ignoreableErrs err

/-- The reversed IEEE polynomial used by hash/crc32's ChecksumIEEE. -/
def crc32Poly : Nat := 0xedb88320

/-- One bit step of the reflected crc32 computation. -/
def crc32Step (crc : Nat) : Nat :=
  if crc % 2 = 1 then (crc >>> 1) ^^^ crc32Poly else crc >>> 1

/-- Absorb one byte into the crc state: xor it in, then eight bit steps. -/
def crc32Byte (crc b : Nat) : Nat :=
  crc32Step^[8] (crc ^^^ (b % 256))

/-- crc32.ChecksumIEEE over a byte string: initial state 0xffffffff,
absorb each byte, final complement. -/
def crc32ChecksumIEEE (data : List Nat) : Nat :=
  (data.foldl crc32Byte 0xffffffff) ^^^ 0xffffffff

/-- `lockID` maps a lock name (its byte string) to the 32-bit advisory
lock key via crc32.ChecksumIEEE. -/
def lockID (lockName : List Nat) : Nat :=
  crc32ChecksumIEEE lockName

/-- Go contexts as far as pglocker constructs them: the caller's context
passed to Lock, contexts derived by context.WithTimeout, and
context.Background().  Durations are int64 nanoseconds, modelled by Int. -/
inductive Ctx where
  | caller
  | withTimeout (parent : Ctx) (timeout : Int)
  | background
deriving DecidableEq, Repr

/-- Whether a context is the caller's context or derived from it. -/
def Ctx.derivesFromCaller : Ctx → Bool
  | .caller => true
  | .withTimeout parent _ => parent.derivesFromCaller
  | .background => false

/-- Whether a context carries a deadline of its own. -/
def Ctx.hasOwnDeadline : Ctx → Bool
  | .withTimeout _ _ => true
  | _ => false

/-- Whether a context is done, given whether the caller's context has been
cancelled and the time elapsed (ns) since the WithTimeout contexts here
were created.  A derived context is done when its parent is done or its
own timeout has elapsed; context.Background() is never done. -/
def Ctx.doneAt (callerDone : Bool) (elapsed : Int) : Ctx → Bool
  | .caller => callerDone
  | .withTimeout parent timeout => parent.doneAt callerDone elapsed || timeout ≤ elapsed
  | .background => false

/-- A SQL request: the query text and the single uint32 argument. -/
structure SqlRequest where
  query : String
  arg : Nat
deriving DecidableEq, Repr

/-- The database environment a Lock call runs against: the outcome of
db.Conn, and the responses the connection gives to QueryRowContext+Scan
(a bool or an error) and to ExecContext (an optional error), as functions
of the context and request issued. -/
structure DBEnv where
  connResult : Option GoErr
  queryResponse : Ctx → SqlRequest → Except GoErr Bool
  execResponse : Ctx → SqlRequest → Option GoErr

/-- The non-blocking claim request issued by tryLock. -/
def tryLockRequest (lockName : List Nat) : SqlRequest :=
  ⟨"SELECT pg_try_advisory_lock($1)", lockID lockName⟩

/-- The blocking claim request issued by waitForLock. -/
def waitForLockRequest (lockName : List Nat) : SqlRequest :=
  ⟨"SELECT pg_advisory_lock($1)", lockID lockName⟩

/-- The unlock request issued by releaseLock. -/
def releaseLockRequest (lockName : List Nat) : SqlRequest :=
  ⟨"SELECT pg_advisory_unlock($1)", lockID lockName⟩

/-- tryLock: one QueryRowContext of pg_try_advisory_lock on the given
context, scanning a bool.  Returns (acquired, error) and the list of
(context, request) pairs issued. -/
def tryLock (env : DBEnv) (ctx : Ctx) (lockName : List Nat) :
    (Bool × Option GoErr) × List (Ctx × SqlRequest) :=
  let req := tryLockRequest lockName
  match env.queryResponse ctx req with
  | .error e => ((false, some e), [(ctx, req)])
  | .ok ok => ((ok, none), [(ctx, req)])

/-- waitForLock: derive a context from ctx with the given timeout, then
one ExecContext of pg_advisory_lock on it.  Returns (acquired, error) and
the (context, request) pairs issued. -/
def waitForLock (env : DBEnv) (ctx : Ctx) (lockName : List Nat) (timeout : Int) :
    (Bool × Option GoErr) × List (Ctx × SqlRequest) :=
  let tctx := Ctx.withTimeout ctx timeout
  let req := waitForLockRequest lockName
  match env.execResponse tctx req with
  | some e => ((false, some e), [(tctx, req)])
  | none => ((true, none), [(tctx, req)])

/-- getLock: try-once when timeout is zero, otherwise wait-with-deadline. -/
def getLock (env : DBEnv) (ctx : Ctx) (lockName : List Nat) (timeout : Int) :
    (Bool × Option GoErr) × List (Ctx × SqlRequest) :=
  if timeout = 0 then tryLock env ctx lockName
  else waitForLock env ctx lockName timeout

/-- releaseLock: one ExecContext of pg_advisory_unlock under a context of
its own (context.Background()), so release can be attempted even after
the calling function's context has been closed.  Returns the error and
the (context, request) pairs issued. -/
def releaseLock (env : DBEnv) (lockName : List Nat) :
    Option GoErr × List (Ctx × SqlRequest) :=
  let ctx := Ctx.background
  let req := releaseLockRequest lockName
  (env.execResponse ctx req, [(ctx, req)])

/-- Default ping interval: 10 seconds, in nanoseconds. -/
def defaultPingInterval : Int := 10 * 1000000000

/-- The lockOpts value assembled at the top of Lock. -/
structure lockOpts where
  timeout : Int
  pingInterval : Int
deriving DecidableEq, Repr

/-- The two LockOption constructors: WithTimeout and WithPingInterval. -/
inductive LockOption where
  | withTimeout (timeout : Int)
  | withPingInterval (pingInterval : Int)
deriving DecidableEq, Repr

/-- Application of one LockOption to the lockOpts value. -/
def applyOption (o : lockOpts) : LockOption → lockOpts
  | .withTimeout t => { o with timeout := t }
  | .withPingInterval p => { o with pingInterval := p }

/-- The lockOpts Lock computes: pingInterval defaulted, then each option
applied in order. -/
def resolveOpts (options : List LockOption) : lockOpts :=
  options.foldl applyOption { timeout := 0, pingInterval := defaultPingInterval }

/-- One iteration's input to the goroutine's select: either the caller's
context became done (carrying the non-nil ctx.Err()), or the ticker fired
and conn.PingContext returned the given result. -/
inductive LoopEvent where
  | ctxDone (ctxErr : GoErr)
  | tick (pingResult : Option GoErr)
deriving DecidableEq, Repr

/-- The goroutine's for-loop: runs while lErr is nil, consuming select
outcomes in order; returns the first non-nil lErr, or none if the given
events are exhausted with the loop still running. -/
def livenessLoop : List LoopEvent → Option GoErr
  | [] => none
  | .ctxDone e :: _ => some e
  | .tick none :: rest => livenessLoop rest
  | .tick (some e) :: _ => some e

/-- Observable actions of the background goroutine: a SQL request on some
context, a send on the errs channel, closing the errs channel, and (for
stating session-lifecycle claims) closing the session. -/
inductive GoEvent where
  | sqlExec (ctx : Ctx) (req : SqlRequest)
  | chanSend (v : Option GoErr)
  | chanClose
  | connClose
deriving DecidableEq, Repr

/-- The background goroutine started by Lock, as a trace: once the
liveness loop exits with terminal cause lErr, it calls releaseLock,
lets a non-ignorable release error supersede lErr, sends ignoreErr of
the result on errs, and the deferred close(errs) runs.  Returns none if
the loop is still running after the given events. -/
def lockGoroutine (env : DBEnv) (lockName : List Nat) (events : List LoopEvent) :
    Option (List GoEvent) :=
  match livenessLoop events with
  | none => none
  | some lErr =>
      let rel := releaseLock env lockName
      let releaseErr := ignoreErr rel.fst
      let finalErr := match releaseErr with
        | some e => e
        | none => lErr
      some ((rel.snd.map fun p => GoEvent.sqlExec p.fst p.snd) ++
        [GoEvent.chanSend (ignoreErr (some finalErr)), GoEvent.chanClose])

/-- The errs channel as returned to the caller: make(chan error, 1). -/
structure ErrChan where
  capacity : Nat
deriving DecidableEq, Repr

/-- What a call to Lock returns and does synchronously: the channel and
error returned, whether conn.Close() was called before returning, whether
the background goroutine was started, and the (context, request) pairs
issued during acquisition. -/
structure LockResult where
  errChan : Option ErrChan
  err : Option GoErr
  sessionClosed : Bool
  goroutineStarted : Bool
  acquisitionIssued : List (Ctx × SqlRequest)
deriving DecidableEq, Repr

/-- The synchronous part of Lock: resolve options, check out a session
(db.Conn), run getLock; on failure close the session and return a wrapped
error and nil channel; on success create errs with capacity 1, start the
goroutine, and return the channel. -/
def Lock (env : DBEnv) (lockName : List Nat) (options : List LockOption) :
    LockResult :=
  let opts := resolveOpts options
  match env.connResult with
  | some e => ⟨none, some e, false, false, []⟩
  | none =>
      let g := getLock env Ctx.caller lockName opts.timeout
      let ok := g.fst.fst
      let err := g.fst.snd
      if err ≠ none ∨ ok = false then
        ⟨none, some (GoErr.other ("could not obtain lock: " ++ errValueString err)),
          true, false, g.snd⟩
      else
        ⟨some ⟨1⟩, none, false, true, g.snd⟩

/-! Helper lemmas. -/

lemma ignoreErr_none : ignoreErr none = none := rfl

lemma ignoreErr_eq_none_iff (e : GoErr) :
    ignoreErr (some e) = none ↔
      (e = GoErr.deadlineExceeded ∨ e = GoErr.canceled ∨ e = GoErr.errConnDone) := by
  cases e <;> simp [ignoreErr, ignoreErrLoop, ignoreableErrs]

lemma ignoreErr_eq_or (err : Option GoErr) :
    ignoreErr err = none ∨ ignoreErr err = err := by
  rcases err with _ | e
  · exact Or.inl rfl
  · cases e <;> simp [ignoreErr, ignoreErrLoop, ignoreableErrs]

lemma ignoreErr_fixes (raw : Option GoErr) (e : GoErr)
    (h : ignoreErr raw = some e) : ignoreErr (some e) = some e := by
  rcases ignoreErr_eq_or raw with h0 | h0
  · rw [h0] at h; exact absurd h (by simp)
  · rw [h0] at h; rw [← h]; exact h0

lemma xor_lt_two_pow_32 {x y : Nat} (hx : x < 2 ^ 32) (hy : y < 2 ^ 32) :
    x ^^^ y < 2 ^ 32 :=
  Nat.bitwise_lt hx hy

lemma crc32Step_lt {crc : Nat} (h : crc < 2 ^ 32) : crc32Step crc < 2 ^ 32 := by
  unfold crc32Step
  have hs : crc >>> 1 < 2 ^ 32 := by
    rw [Nat.shiftRight_eq_div_pow]
    exact lt_of_le_of_lt (Nat.div_le_self _ _) h
  split
  · exact xor_lt_two_pow_32 hs (by norm_num [crc32Poly])
  · exact hs

lemma crc32Step_iter_lt (n : Nat) {crc : Nat} (h : crc < 2 ^ 32) :
    crc32Step^[n] crc < 2 ^ 32 := by
  induction n generalizing crc with
  | zero => exact h
  | succ k ih => rw [Function.iterate_succ_apply]; exact ih (crc32Step_lt h)

lemma crc32Byte_lt {crc : Nat} (b : Nat) (h : crc < 2 ^ 32) :
    crc32Byte crc b < 2 ^ 32 :=
  crc32Step_iter_lt 8 (xor_lt_two_pow_32 h
    (lt_of_lt_of_le (Nat.mod_lt _ (by norm_num)) (by norm_num)))

lemma crc32_foldl_lt (data : List Nat) {crc : Nat} (h : crc < 2 ^ 32) :
    data.foldl crc32Byte crc < 2 ^ 32 := by
  induction data generalizing crc with
  | nil => exact h
  | cons b rest ih => exact ih (crc32Byte_lt b h)

lemma Lock_connResult_some (env : DBEnv) (lockName : List Nat)
    (options : List LockOption) (e : GoErr) (h : env.connResult = some e) :
    Lock env lockName options = ⟨none, some e, false, false, []⟩ := by
  unfold Lock
  rw [h]

lemma Lock_acquire_fail (env : DBEnv) (lockName : List Nat)
    (options : List LockOption) (h : env.connResult = none)
    (hfail : (getLock env Ctx.caller lockName (resolveOpts options).timeout).fst.snd ≠ none ∨
      (getLock env Ctx.caller lockName (resolveOpts options).timeout).fst.fst = false) :
    Lock env lockName options =
      ⟨none, some (GoErr.other ("could not obtain lock: " ++
          errValueString (getLock env Ctx.caller lockName (resolveOpts options).timeout).fst.snd)),
        true, false, (getLock env Ctx.caller lockName (resolveOpts options).timeout).snd⟩ := by
  unfold Lock
  rw [h]
  simp only
  rw [if_pos hfail]

lemma Lock_acquire_success (env : DBEnv) (lockName : List Nat)
    (options : List LockOption) (h : env.connResult = none)
    (hok : ¬ ((getLock env Ctx.caller lockName (resolveOpts options).timeout).fst.snd ≠ none ∨
      (getLock env Ctx.caller lockName (resolveOpts options).timeout).fst.fst = false)) :
    Lock env lockName options =
      ⟨some ⟨1⟩, none, false, true,
        (getLock env Ctx.caller lockName (resolveOpts options).timeout).snd⟩ := by
  unfold Lock
  rw [h]
  simp only
  rw [if_neg hok]

/-! Claim theorems. -/

/-- C8: the identifier mapper lockID is a total function into 32-bit
unsigned integers (determinism and purity are intrinsic to this
definitional embedding: lockID depends on nothing but the name's bytes),
and the try-claim, blocking-claim and release requests all carry the key
lockID of the same name, so acquisition and release act on the same key. -/
theorem lockID_total_and_shared (lockName : List Nat) :
    lockID lockName < 2 ^ 32 ∧
    (tryLockRequest lockName).arg = lockID lockName ∧
    (waitForLockRequest lockName).arg = lockID lockName ∧
    (releaseLockRequest lockName).arg = lockID lockName :=
  ⟨xor_lt_two_pow_32 (crc32_foldl_lt lockName (by norm_num)) (by norm_num),
    rfl, rfl, rfl⟩

/-- C3: the error classifier ignoreErr maps exactly the three conditions
context.DeadlineExceeded, context.Canceled and sql.ErrConnDone to nil;
every other error value is returned unchanged (and nil maps to nil). -/
theorem ignoreErr_exactly_three (e : GoErr) :
    (ignoreErr (some e) = none ↔
      (e = GoErr.deadlineExceeded ∨ e = GoErr.canceled ∨ e = GoErr.errConnDone)) ∧
    (ignoreErr (some e) = none ∨ ignoreErr (some e) = some e) ∧
    ignoreErr none = none :=
  ⟨ignoreErr_eq_none_iff e, ignoreErr_eq_or (some e), rfl⟩

/-- Witness for C3 at the concrete non-benign error value other "boom". -/
theorem ignoreErr_exactly_three_witness :
    (ignoreErr (some (GoErr.other "boom")) = none ↔
      (GoErr.other "boom" = GoErr.deadlineExceeded ∨
        GoErr.other "boom" = GoErr.canceled ∨
        GoErr.other "boom" = GoErr.errConnDone)) ∧
    (ignoreErr (some (GoErr.other "boom")) = none ∨
      ignoreErr (some (GoErr.other "boom")) = some (GoErr.other "boom")) ∧
    ignoreErr none = none :=
  ignoreErr_exactly_three (GoErr.other "boom")

/-- A concrete environment for witnesses: session checkout succeeds, the
try-claim scan yields true, every Exec succeeds. -/
def envOk : DBEnv :=
  ⟨none, fun _ _ => Except.ok true, fun _ _ => none⟩

/-- A concrete environment in which the try-claim reports not acquired
with no transport error. -/
def envNotAcquired : DBEnv :=
  ⟨none, fun _ _ => Except.ok false, fun _ _ => none⟩

/-- A concrete environment in which the unlock Exec fails with a
non-benign error while everything else succeeds. -/
def envReleaseFails : DBEnv :=
  ⟨none, fun _ _ => Except.ok true,
    fun _ req => if req.query = "SELECT pg_advisory_unlock($1)"
      then some (GoErr.other "boom") else none⟩

/-- C5: acquisition mode is selected solely by whether timeout is zero.
With timeout = 0, getLock issues exactly one non-blocking try-claim on the
caller's context and returns its boolean result plus any transport error,
with no retry; with timeout not 0, it issues exactly one blocking claim
under a context derived from the caller's context by WithTimeout, so that
cancellation of the caller's context or the timeout elapsing (measured
from the start of the wait) makes that context done. -/
theorem getLock_mode_selection (env : DBEnv) (lockName : List Nat) (timeout : Int) :
    (timeout = 0 →
      getLock env Ctx.caller lockName timeout = tryLock env Ctx.caller lockName ∧
      (getLock env Ctx.caller lockName timeout).snd =
        [(Ctx.caller, tryLockRequest lockName)] ∧
      (∀ b, env.queryResponse Ctx.caller (tryLockRequest lockName) = Except.ok b →
        (getLock env Ctx.caller lockName timeout).fst = (b, none)) ∧
      (∀ e, env.queryResponse Ctx.caller (tryLockRequest lockName) = Except.error e →
        (getLock env Ctx.caller lockName timeout).fst = (false, some e))) ∧
    (timeout ≠ 0 →
      getLock env Ctx.caller lockName timeout = waitForLock env Ctx.caller lockName timeout ∧
      (getLock env Ctx.caller lockName timeout).snd =
        [(Ctx.withTimeout Ctx.caller timeout, waitForLockRequest lockName)] ∧
      (∀ elapsed, (Ctx.withTimeout Ctx.caller timeout).doneAt true elapsed = true) ∧
      (∀ elapsed, timeout ≤ elapsed →
        (Ctx.withTimeout Ctx.caller timeout).doneAt false elapsed = true)) := by
  constructor
  · intro h0
    subst h0
    refine ⟨rfl, ?_, ?_, ?_⟩
    · simp only [getLock, if_pos rfl, tryLock]
      cases env.queryResponse Ctx.caller (tryLockRequest lockName) <;> rfl
    · intro b hb
      simp [getLock, tryLock, hb]
    · intro e he
      simp [getLock, tryLock, he]
  · intro hne
    refine ⟨by simp only [getLock, if_neg hne], ?_, ?_, ?_⟩
    · simp only [getLock, if_neg hne, waitForLock]
      cases env.execResponse (Ctx.withTimeout Ctx.caller timeout) (waitForLockRequest lockName) <;> rfl
    · intro elapsed
      simp [Ctx.doneAt]
    · intro elapsed hle
      simp [Ctx.doneAt, hle]

/-- Witness for C5: both modes exercised on concrete environments, names
and timeouts. -/
theorem getLock_mode_selection_witness :
    getLock envOk Ctx.caller [108] 0 = tryLock envOk Ctx.caller [108] ∧
    (getLock envOk Ctx.caller [108, 107] 7).snd =
      [(Ctx.withTimeout Ctx.caller 7, waitForLockRequest [108, 107])] ∧
    (Ctx.withTimeout Ctx.caller 7).doneAt true 0 = true ∧
    (Ctx.withTimeout Ctx.caller 7).doneAt false 7 = true :=
  ⟨((getLock_mode_selection envOk [108] 0).1 rfl).1,
    ((getLock_mode_selection envOk [108, 107] 7).2 (by decide)).2.1,
    ((getLock_mode_selection envOk [108, 107] 7).2 (by decide)).2.2.1 0,
    ((getLock_mode_selection envOk [108, 107] 7).2 (by decide)).2.2.2 7 (by decide)⟩

/-- C4 counterexample: the unlock request issued by releaseLock runs on
context.Background(), which carries no deadline at all — refuting the
claim that the release attempt is bounded by its own independent deadline. -/
theorem releaseLock_unbounded_counterexample :
    (releaseLock envOk [108]).snd = [(Ctx.background, releaseLockRequest [108])] ∧
    Ctx.background.hasOwnDeadline = false :=
  ⟨rfl, rfl⟩

/-- C4 amended: every release issues its unlock request under
context.Background(), a context not derived from the caller's cancellation
context and never done — so cancelling the caller's context (or any
passage of time) never aborts an in-flight release attempt; but this
context carries no deadline: the release attempt is unbounded. -/
theorem releaseLock_independent_ctx (env : DBEnv) (lockName : List Nat) :
    (releaseLock env lockName).snd = [(Ctx.background, releaseLockRequest lockName)] ∧
    Ctx.background.derivesFromCaller = false ∧
    Ctx.background.hasOwnDeadline = false ∧
    (∀ callerDone elapsed, Ctx.background.doneAt callerDone elapsed = false) :=
  ⟨rfl, rfl, rfl, fun _ _ => rfl⟩

/-- C2: whenever session checkout succeeds but acquisition fails — the
request returned an error or the lock was not acquired (which covers the
wait timing out, since that surfaces as an error from the request) — Lock
closes the session before returning, returns a non-nil error
synchronously, returns a nil channel, and never starts the background
goroutine, so the Completion Signal is never created on this path. -/
theorem Lock_failure_path (env : DBEnv) (lockName : List Nat)
    (options : List LockOption)
    (hconn : env.connResult = none)
    (hfail : (getLock env Ctx.caller lockName (resolveOpts options).timeout).fst.snd ≠ none ∨
      (getLock env Ctx.caller lockName (resolveOpts options).timeout).fst.fst = false) :
    (Lock env lockName options).errChan = none ∧
    (Lock env lockName options).err ≠ none ∧
    (Lock env lockName options).sessionClosed = true ∧
    (Lock env lockName options).goroutineStarted = false := by
  unfold Lock
  rw [hconn]
  simp only
  rw [if_pos hfail]
  exact ⟨rfl, by simp, rfl, rfl⟩

/-- Witness for C2: the try-claim reports not-acquired in a concrete
environment; Lock closes the session and fails synchronously. -/
theorem Lock_failure_path_witness :
    (Lock envNotAcquired [108] []).errChan = none ∧
    (Lock envNotAcquired [108] []).err ≠ none ∧
    (Lock envNotAcquired [108] []).sessionClosed = true ∧
    (Lock envNotAcquired [108] []).goroutineStarted = false :=
  Lock_failure_path envNotAcquired [108] [] rfl (Or.inr rfl)

/-- C9: Lock never returns a nil channel together with a nil error; in
particular, when the try-claim reports not-acquired without a transport
error, the nil underlying error is wrapped into the non-nil error
"could not obtain lock: <nil>". -/
theorem Lock_no_nil_nil (env : DBEnv) (lockName : List Nat)
    (options : List LockOption) :
    ((Lock env lockName options).errChan = none →
      (Lock env lockName options).err ≠ none) ∧
    (env.connResult = none →
      (resolveOpts options).timeout = 0 →
      env.queryResponse Ctx.caller (tryLockRequest lockName) = Except.ok false →
      (Lock env lockName options).err =
        some (GoErr.other "could not obtain lock: <nil>")) := by
  constructor
  · intro hchan
    have hcases :
        ((Lock env lockName options).errChan = none ∧
          (Lock env lockName options).err ≠ none) ∨
        (Lock env lockName options).errChan = some ⟨1⟩ := by
      unfold Lock
      cases env.connResult with
      | some e => exact Or.inl ⟨rfl, by simp⟩
      | none =>
          simp only
          split
          · exact Or.inl ⟨rfl, by simp⟩
          · exact Or.inr rfl
    rcases hcases with ⟨_, h2⟩ | h1
    · exact h2
    · rw [hchan] at h1; exact absurd h1.symm (Option.some_ne_none _)
  · intro hconn ht hq
    unfold Lock
    rw [hconn]
    simp only
    have hg : getLock env Ctx.caller lockName (resolveOpts options).timeout =
        ((false, none), [(Ctx.caller, tryLockRequest lockName)]) := by
      rw [ht]
      simp [getLock, tryLock, hq]
    rw [if_pos (by rw [hg]; exact Or.inr rfl)]
    simp only [hg]
    rfl

/-- Witness for C9: in the concrete not-acquired environment Lock returns
a nil channel with the wrapped non-nil error. -/
theorem Lock_no_nil_nil_witness :
    ((Lock envNotAcquired [107] []).errChan = none →
      (Lock envNotAcquired [107] []).err ≠ none) ∧
    (Lock envNotAcquired [107] []).err =
      some (GoErr.other "could not obtain lock: <nil>") :=
  ⟨(Lock_no_nil_nil envNotAcquired [107] []).1,
    (Lock_no_nil_nil envNotAcquired [107] []).2 rfl rfl rfl⟩

/-- The value the goroutine sends on errs: the terminal cause, superseded
by a non-ignorable release error, then passed through ignoreErr. -/
def sentValue (env : DBEnv) (lockName : List Nat) (lErr : GoErr) : Option GoErr :=
  ignoreErr (some (match ignoreErr (releaseLock env lockName).fst with
    | some e => e
    | none => lErr))

/-- Whether a goroutine event is a send on the errs channel. -/
def isChanSend : GoEvent → Bool
  | .chanSend _ => true
  | _ => false

lemma lockGoroutine_eq (env : DBEnv) (lockName : List Nat)
    (events : List LoopEvent) (lErr : GoErr)
    (hloop : livenessLoop events = some lErr) :
    lockGoroutine env lockName events =
      some [GoEvent.sqlExec Ctx.background (releaseLockRequest lockName),
        GoEvent.chanSend (sentValue env lockName lErr), GoEvent.chanClose] := by
  unfold lockGoroutine
  rw [hloop]
  rfl

/-- C1: once the liveness loop of a successfully acquired lock terminates,
the goroutine's trace is exactly: the release request, then a single send
on the errs channel, then closing the channel.  So the channel delivers
exactly one value, only after the release attempt, and is closed after
that delivery; the value is nil when the terminal cause and the release
outcome are benign, and the classified terminal error otherwise. -/
theorem completion_signal_fires_once (env : DBEnv) (lockName : List Nat)
    (options : List LockOption) (events : List LoopEvent) (lErr : GoErr)
    (hheld : (Lock env lockName options).goroutineStarted = true)
    (hloop : livenessLoop events = some lErr) :
    ∃ v : Option GoErr,
      lockGoroutine env lockName events =
        some [GoEvent.sqlExec Ctx.background (releaseLockRequest lockName),
          GoEvent.chanSend v, GoEvent.chanClose] ∧
      (ignoreErr (releaseLock env lockName).fst = none → v = ignoreErr (some lErr)) ∧
      (∀ e, ignoreErr (releaseLock env lockName).fst = some e → v = some e) := by
  refine ⟨sentValue env lockName lErr, lockGoroutine_eq env lockName events lErr hloop, ?_, ?_⟩
  · intro hrel
    unfold sentValue
    rw [hrel]
  · intro e hrel
    unfold sentValue
    rw [hrel]
    exact ignoreErr_fixes _ e hrel

/-- Witness for C1: a concrete held lock whose caller cancels; the trace
is the release request, one send of nil, then close. -/
theorem completion_signal_fires_once_witness :
    ∃ v : Option GoErr,
      lockGoroutine envOk [108] [LoopEvent.ctxDone GoErr.canceled] =
        some [GoEvent.sqlExec Ctx.background (releaseLockRequest [108]),
          GoEvent.chanSend v, GoEvent.chanClose] ∧
      (ignoreErr (releaseLock envOk [108]).fst = none →
        v = ignoreErr (some GoErr.canceled)) ∧
      (∀ e, ignoreErr (releaseLock envOk [108]).fst = some e → v = some e) :=
  completion_signal_fires_once envOk [108] [] [LoopEvent.ctxDone GoErr.canceled]
    GoErr.canceled rfl rfl

/-- C6: when the liveness loop terminates with terminal cause lErr and the
release attempt fails non-benignly with e, the goroutine reports e on the
errs channel (the release error supersedes the prior cause); when the
release outcome is benign or successful, it reports ignoreErr of the prior
terminal cause instead. -/
theorem release_error_supersedes (env : DBEnv) (lockName : List Nat)
    (events : List LoopEvent) (lErr : GoErr)
    (hloop : livenessLoop events = some lErr) :
    (∀ e, ignoreErr (releaseLock env lockName).fst = some e →
      lockGoroutine env lockName events =
        some [GoEvent.sqlExec Ctx.background (releaseLockRequest lockName),
          GoEvent.chanSend (some e), GoEvent.chanClose]) ∧
    (ignoreErr (releaseLock env lockName).fst = none →
      lockGoroutine env lockName events =
        some [GoEvent.sqlExec Ctx.background (releaseLockRequest lockName),
          GoEvent.chanSend (ignoreErr (some lErr)), GoEvent.chanClose]) := by
  constructor
  · intro e hrel
    rw [lockGoroutine_eq env lockName events lErr hloop]
    unfold sentValue
    rw [hrel, ignoreErr_fixes _ e hrel]
  · intro hrel
    rw [lockGoroutine_eq env lockName events lErr hloop]
    unfold sentValue
    rw [hrel]

/-- Witness for C6: with a failing unlock the reported value is the
release error "boom", superseding the cancellation cause; with a clean
unlock the reported value is the classified prior cause. -/
theorem release_error_supersedes_witness :
    lockGoroutine envReleaseFails [108] [LoopEvent.ctxDone GoErr.canceled] =
      some [GoEvent.sqlExec Ctx.background (releaseLockRequest [108]),
        GoEvent.chanSend (some (GoErr.other "boom")), GoEvent.chanClose] ∧
    lockGoroutine envOk [108] [LoopEvent.ctxDone GoErr.canceled] =
      some [GoEvent.sqlExec Ctx.background (releaseLockRequest [108]),
        GoEvent.chanSend (ignoreErr (some GoErr.canceled)), GoEvent.chanClose] :=
  ⟨(release_error_supersedes envReleaseFails [108]
      [LoopEvent.ctxDone GoErr.canceled] GoErr.canceled rfl).1
      (GoErr.other "boom") rfl,
    (release_error_supersedes envOk [108]
      [LoopEvent.ctxDone GoErr.canceled] GoErr.canceled rfl).2 rfl⟩

/-- C7 counterexample: for a concrete held lock whose loop exits by
cancellation, the goroutine's entire trace is the release request, the
send and the channel close — it contains no closing of the session, so
the Session is not destroyed when the lock is released and the liveness
loop exits. -/
theorem session_never_closed_counterexample :
    lockGoroutine envOk [109] [LoopEvent.ctxDone GoErr.canceled] =
      some [GoEvent.sqlExec Ctx.background (releaseLockRequest [109]),
        GoEvent.chanSend none, GoEvent.chanClose] ∧
    GoEvent.connClose ∉
      [GoEvent.sqlExec Ctx.background (releaseLockRequest [109]),
        GoEvent.chanSend none, GoEvent.chanClose] :=
  ⟨rfl, by decide⟩

/-- C7 amended: the Session is closed by Lock itself when acquisition
fails, but once the lock is held no component closes the Session: the
background task's trace never contains a session close (it only releases
the advisory lock, sends and closes the channel), and Lock returns from
the success path without closing the session. -/
theorem session_close_behavior (env : DBEnv) (lockName : List Nat)
    (options : List LockOption) (events : List LoopEvent) (lErr : GoErr)
    (hloop : livenessLoop events = some lErr) :
    (∃ tr, lockGoroutine env lockName events = some tr ∧ GoEvent.connClose ∉ tr) ∧
    ((Lock env lockName options).goroutineStarted = true →
      (Lock env lockName options).sessionClosed = false) := by
  constructor
  · refine ⟨_, lockGoroutine_eq env lockName events lErr hloop, ?_⟩
    intro hmem
    simp only [List.mem_cons, List.not_mem_nil] at hmem
    rcases hmem with h | h | h | h
    · exact GoEvent.noConfusion h
    · exact GoEvent.noConfusion h
    · exact GoEvent.noConfusion h
    · exact h
  · intro hstart
    cases hc : env.connResult with
    | some e =>
        rw [Lock_connResult_some env lockName options e hc] at hstart
        exact Bool.noConfusion hstart
    | none =>
        by_cases hcond :
          (getLock env Ctx.caller lockName (resolveOpts options).timeout).fst.snd ≠ none ∨
            (getLock env Ctx.caller lockName (resolveOpts options).timeout).fst.fst = false
        · rw [Lock_acquire_fail env lockName options hc hcond] at hstart
          exact Bool.noConfusion hstart
        · rw [Lock_acquire_success env lockName options hc hcond]

/-- Witness for C7 amended: concrete environment and cancellation event. -/
theorem session_close_behavior_witness :
    (∃ tr, lockGoroutine envOk [109] [LoopEvent.ctxDone GoErr.canceled] = some tr ∧
      GoEvent.connClose ∉ tr) ∧
    ((Lock envOk [109] []).goroutineStarted = true →
      (Lock envOk [109] []).sessionClosed = false) :=
  session_close_behavior envOk [109] [] [LoopEvent.ctxDone GoErr.canceled]
    GoErr.canceled rfl

/-- C10: the channel Lock returns on success is created with capacity
one; once the liveness loop terminates, the goroutine's trace contains
exactly one send — which therefore fits in the buffer and cannot block —
and the trace is finite and ends with the channel close, so the goroutine
terminates even if the caller never reads from the channel. -/
theorem channel_send_fits_capacity (env : DBEnv) (lockName : List Nat)
    (options : List LockOption) (events : List LoopEvent) (lErr : GoErr)
    (hloop : livenessLoop events = some lErr) :
    (∀ ch, (Lock env lockName options).errChan = some ch → ch.capacity = 1) ∧
    (∃ tr, lockGoroutine env lockName events = some tr ∧
      tr.countP (fun ev => isChanSend ev) = 1 ∧
      tr.countP (fun ev => isChanSend ev) ≤ 1 ∧
      tr.getLast? = some GoEvent.chanClose) := by
  constructor
  · intro ch hch
    cases hc : env.connResult with
    | some e =>
        rw [Lock_connResult_some env lockName options e hc] at hch
        exact Option.noConfusion hch
    | none =>
        by_cases hcond :
          (getLock env Ctx.caller lockName (resolveOpts options).timeout).fst.snd ≠ none ∨
            (getLock env Ctx.caller lockName (resolveOpts options).timeout).fst.fst = false
        · rw [Lock_acquire_fail env lockName options hc hcond] at hch
          exact Option.noConfusion hch
        · rw [Lock_acquire_success env lockName options hc hcond] at hch
          have h1 := Option.some.inj hch
          rw [← h1]
  · refine ⟨_, lockGoroutine_eq env lockName events lErr hloop, ?_, ?_, rfl⟩
    · simp [List.countP, List.countP.go, isChanSend]
    · simp [List.countP, List.countP.go, isChanSend]

/-- Witness for C10: the concrete held lock returns a channel of capacity
one and its goroutine trace has a single send followed by the close. -/
theorem channel_send_fits_capacity_witness :
    (∀ ch, (Lock envOk [110] []).errChan = some ch → ch.capacity = 1) ∧
    (∃ tr, lockGoroutine envOk [110] [LoopEvent.ctxDone GoErr.canceled] = some tr ∧
      tr.countP (fun ev => isChanSend ev) = 1 ∧
      tr.countP (fun ev => isChanSend ev) ≤ 1 ∧
      tr.getLast? = some GoEvent.chanClose) :=
  channel_send_fits_capacity envOk [110] [] [LoopEvent.ctxDone GoErr.canceled]
    GoErr.canceled rfl

end Pglocker
